import Mathlib

/-!
Shallow embedding of the JITNONGNOOONG todo-list entity layer
(`src/models.py`) and of its task-manager / flat-file-store layer
(`main.py`, specified in the design document and exercised by the test
suite), together with proofs about the data-model contracts:
serialization round trips, default fill-in on deserialization,
enum-tag normalization, create/update semantics and load tolerance.

Python strings are Lean `String`s; a JSON field map ("document") with
possibly-absent keys is a structure of `Option String` fields; a Python
function that can raise (`Priority(tag)` raising `ValueError`) is
`Option`-valued, `none` modelling the raised error.  The sources of
nondeterminism in the Python code — `uuid.uuid4()` for fresh identifiers
and `datetime.utcnow()` for timestamps — are passed in as explicit
arguments.
-/

namespace Todolist

/-- `class Priority(Enum)` from `src/models.py` lines 8-11. -/
inductive Priority where
  | HIGH
  | MID
  | LOW
deriving DecidableEq, Repr

/-- `class Status(Enum)` from `src/models.py` lines 14-16. -/
inductive Status where
  | PENDING
  | COMPLETED
deriving DecidableEq, Repr

/-- The `.value` of each `Priority` member (its string tag). -/
def Priority.value : Priority → String
  | .HIGH => "HIGH"
  | .MID => "MID"
  | .LOW => "LOW"

/-- The `.value` of each `Status` member (its string tag). -/
def Status.value : Status → String
  | .PENDING => "PENDING"
  | .COMPLETED => "COMPLETED"

/-- The enum constructor call `Priority(tag)`: returns the member whose
value is `tag`, and raises `ValueError` (here: `none`) otherwise. -/
def priorityOfValue : String → Option Priority
  | "HIGH" => some .HIGH
  | "MID" => some .MID
  | "LOW" => some .LOW
  | _ => none

/-- The enum constructor call `Status(tag)`: returns the member whose
value is `tag`, and raises `ValueError` (here: `none`) otherwise. -/
def statusOfValue : String → Option Status
  | "PENDING" => some .PENDING
  | "COMPLETED" => some .COMPLETED
  | _ => none

/-- A JSON document holding (possibly a subset of) the fields of a user,
as read back by `json.load`; absent keys are `none`. -/
structure UserDoc where
  username : Option String
  password : Option String
deriving DecidableEq, Repr

/-- `@dataclass class User` from `src/models.py` lines 19-22. -/
structure User where
  username : String
  password : String
deriving DecidableEq, Repr

/-- `User.to_dict` (`src/models.py` lines 24-25): `asdict(self)`. -/
def User.to_dict (u : User) : UserDoc :=
  { username := some u.username, password := some u.password }

/-- `User.from_dict` (`src/models.py` lines 27-32):
`data.get(key, "")` for both fields. -/
def User.from_dict (data : UserDoc) : User :=
  { username := data.username.getD ""
    password := data.password.getD "" }

/-- A JSON document holding (possibly a subset of) the fields of a todo
item; absent keys are `none`. -/
structure TodoDoc where
  id : Option String
  title : Option String
  details : Option String
  priority : Option String
  status : Option String
  owner : Option String
  created_at : Option String
  updated_at : Option String
deriving DecidableEq, Repr

/-- `@dataclass class TodoItem` from `src/models.py` lines 35-44 (its
field declarations; the duplicated redeclaration at lines 64-71 is
definitionally identical, see `TodoItem.mkDefaultDup`). -/
structure TodoItem where
  id : String
  title : String
  details : String
  priority : Priority
  status : Status
  owner : String
  created_at : String
  updated_at : String
deriving DecidableEq, Repr

/-- The dataclass defaults of `TodoItem` (`src/models.py` lines 37-44):
`id` from the `uuid.uuid4()` factory (passed in as `freshId`), `title`/
`details`/`owner` empty, `priority = Priority.MID`,
`status = Status.PENDING`, timestamps from the `datetime.utcnow()`
factories (passed in as `nowC`, `nowU`). -/
def TodoItem.mkDefault (freshId nowC nowU : String) : TodoItem :=
  { id := freshId
    title := ""
    details := ""
    priority := .MID
    status := .PENDING
    owner := ""
    created_at := nowC
    updated_at := nowU }

/-- `TodoItem.to_dict` (`src/models.py` lines 46-50): `asdict(self)`
with `priority`/`status` overwritten by their `.value` tags. -/
def TodoItem.to_dict (r : TodoItem) : TodoDoc :=
  { id := some r.id
    title := some r.title
    details := some r.details
    priority := some r.priority.value
    status := some r.status.value
    owner := some r.owner
    created_at := some r.created_at
    updated_at := some r.updated_at }

/-- `TodoItem.from_dict` (`src/models.py` lines 52-63).  Each field is
`data.get(key, default)`; the enum fields then pass through the enum
constructors `Priority(...)`/`Status(...)`, which raise `ValueError`
(here: `none`) when the looked-up value is not a valid tag.  The
`uuid.uuid4()` and `datetime.utcnow()` defaults are passed in as
`freshId`, `nowC`, `nowU`. -/
def TodoItem.from_dict (freshId nowC nowU : String) (data : TodoDoc) :
    Option TodoItem := do
  let p ← priorityOfValue (data.priority.getD "MID")
  let s ← statusOfValue (data.status.getD "PENDING")
  pure
    { id := data.id.getD freshId
      title := data.title.getD ""
      details := data.details.getD ""
      priority := p
      status := s
      owner := data.owner.getD ""
      created_at := data.created_at.getD nowC
      updated_at := data.updated_at.getD nowU }

/-- The duplicated field declarations of `TodoItem`
(`src/models.py` lines 64-71), which in Python shadow the first copy
(lines 37-44) inside the class body; transcribed separately so the two
copies can be compared. -/
def TodoItem.mkDefaultDup (freshId nowC nowU : String) : TodoItem :=
  { id := freshId
    title := ""
    details := ""
    priority := .MID
    status := .PENDING
    owner := ""
    created_at := nowC
    updated_at := nowU }

/-- The duplicated `to_dict` (`src/models.py` lines 73-77), the copy
that shadows the first one (lines 46-50). -/
def TodoItem.to_dictDup (r : TodoItem) : TodoDoc :=
  { id := some r.id
    title := some r.title
    details := some r.details
    priority := some r.priority.value
    status := some r.status.value
    owner := some r.owner
    created_at := some r.created_at
    updated_at := some r.updated_at }

/-- The duplicated `from_dict` (`src/models.py` lines 79-90), the copy
that shadows the first one (lines 52-63). -/
def TodoItem.from_dictDup (freshId nowC nowU : String) (data : TodoDoc) :
    Option TodoItem := do
  let p ← priorityOfValue (data.priority.getD "MID")
  let s ← statusOfValue (data.status.getD "PENDING")
  pure
    { id := data.id.getD freshId
      title := data.title.getD ""
      details := data.details.getD ""
      priority := p
      status := s
      owner := data.owner.getD ""
      created_at := data.created_at.getD nowC
      updated_at := data.updated_at.getD nowU }

/-! ### The task-manager / flat-file-store layer (`main.py`)

`main.py` itself is not part of the shipped sources; the definitions
below are modelled from the specification's contracts for the Flat-File
Store (§4.2) and the Task Manager (§4.4), which its test suite
exercises. -/

/-- Modelled from the spec: `load(path) -> ordered sequence of document`
of the Flat-File Store (`load_users`/todo loading in the missing
`main.py`).  The file system at the path is `none` (file does not
exist) or `some contents`; `parse` is the JSON decoder for the expected
format, `none` on a parse failure.  A missing file and a parse failure
both yield the empty sequence, never an error. -/
def load_store (fileContents : Option String)
    (parse : String → Option (List TodoDoc)) : List TodoDoc :=
  match fileContents with
  | none => []
  | some c => (parse c).getD []

/-- Modelled from the spec: the Task Manager's normalization of a raw
priority tag at its input boundary — `priority` resolved from the tag
with default MID when the tag is not exactly one of HIGH/MID/LOW
(case-sensitive match). -/
def resolvePriority (tag : String) : Priority :=
  (priorityOfValue tag).getD .MID

/-- Modelled from the spec: the Task Manager's normalization of a raw
status tag at its input boundary — default PENDING when the tag is not
exactly one of PENDING/COMPLETED. -/
def resolveStatus (tag : String) : Status :=
  (statusOfValue tag).getD .PENDING

/-- Modelled from the spec: the fresh-identifier generator
(`uuid.uuid4()` in the source), represented as an injective supply
indexed by a counter so that freshness is expressible. -/
def genId (n : Nat) : String :=
  String.mk (List.replicate n 'u')

/-- Modelled from the spec: the state of `TodoManager` (missing
`main.py`) — the in-memory ordered sequence of records, the persisted
document it mirrors, and the index of the next fresh identifier. -/
structure TodoManager where
  todos : List TodoItem
  file : List TodoDoc
  counter : Nat
deriving DecidableEq, Repr

/-- A `TodoManager` with no records, as obtained by constructing the
manager over a missing or empty store. -/
def TodoManager.empty : TodoManager :=
  { todos := [], file := [], counter := 0 }

/-- Modelled from the spec: `getById(id)` — first exact-match lookup by
identifier, absent when no record matches. -/
def TodoManager.get_todo_by_id (m : TodoManager) (i : String) :
    Option TodoItem :=
  m.todos.find? (fun t => t.id == i)

/-- Modelled from the spec: `getByOwner(owner)` — all records whose
`owner` field exactly equals the argument, in stored order. -/
def TodoManager.get_todos_by_owner (m : TodoManager) (owner : String) :
    List TodoItem :=
  m.todos.filter (fun t => t.owner == owner)

/-- Modelled from the spec: `createTask(title, details, priorityTag,
owner)` — builds a record with a fresh identifier, the current
timestamp `now` for both `created_at` and `updated_at`,
`status = PENDING`, and the priority resolved from the tag; appends it,
persists the full sequence, and returns the new record. -/
def TodoManager.create_todo (m : TodoManager)
    (title details priorityTag owner now : String) :
    TodoItem × TodoManager :=
  let r : TodoItem :=
    { id := genId m.counter
      title := title
      details := details
      priority := resolvePriority priorityTag
      status := .PENDING
      owner := owner
      created_at := now
      updated_at := now }
  let todos := m.todos ++ [r]
  (r, { todos := todos
        file := todos.map TodoItem.to_dict
        counter := m.counter + 1 })

/-- Modelled from the spec: the in-place field mutation `updateTask`
performs on the record it found — only the supplied (`some`) fields are
applied, invalid priority/status tags normalize to their defaults, and
`updated_at` is set to the current timestamp. -/
def applyUpdate (t : TodoItem)
    (title? details? priorityTag? statusTag? : Option String)
    (now : String) : TodoItem :=
  { t with
    title := title?.getD t.title
    details := details?.getD t.details
    priority := match priorityTag? with
      | none => t.priority
      | some tag => resolvePriority tag
    status := match statusTag? with
      | none => t.status
      | some tag => resolveStatus tag
    updated_at := now }

/-- Modelled from the spec: `updateTask(id, fields...) -> success flag`
— looks up the record by id; if absent, returns failure and performs no
write; if found, applies the supplied fields, persists the full
sequence and returns success. -/
def TodoManager.update_todo (m : TodoManager) (i : String)
    (title? details? priorityTag? statusTag? : Option String)
    (now : String) : Bool × TodoManager :=
  match m.todos.find? (fun t => t.id == i) with
  | none => (false, m)
  | some _ =>
    let todos := m.todos.map
      (fun t => if t.id == i then
          applyUpdate t title? details? priorityTag? statusTag? now
        else t)
    (true, { m with todos := todos
                    file := todos.map TodoItem.to_dict })

/-- The freshness invariant of a manager state: every held record's
identifier is shorter than the counter, so the next generated
identifier (of length `counter`) cannot collide. -/
def TodoManager.Inv (m : TodoManager) : Prop :=
  ∀ t ∈ m.todos, t.id.length < m.counter

/-! ### Claims about the entity model -/

/-- C1 (counterexample): the claim says `TodoItem.from_dict` replaces a
present-but-invalid `priority`/`status` tag with the field's default
rather than failing; but on a document whose `status` is the invalid
tag `"DONE"` the code raises `ValueError` (modelled: returns no record
at all), so the claim as stated is false. -/
theorem from_dict_invalid_status_counterexample :
    TodoItem.from_dict "f" "t" "t"
      ⟨some "x", some "a", some "b", some "HIGH", some "DONE",
        some "alice", some "t1", some "t2"⟩ = none := rfl

/-- C1 (amended): if `priority` or `status` is present in the document
with a value that is not one of its enumerated tags,
`TodoItem.from_dict` raises `ValueError` (returns no record) instead of
substituting the default; the defaults apply only to absent keys. -/
theorem from_dict_invalid_tag_fails (f c u : String) (d : TodoDoc)
    (h : (∃ p, d.priority = some p ∧ priorityOfValue p = none) ∨
         (∃ s, d.status = some s ∧ statusOfValue s = none)) :
    TodoItem.from_dict f c u d = none := by
  rcases h with ⟨p, hp, hpe⟩ | ⟨s, hs, hse⟩
  · simp [TodoItem.from_dict, hp, hpe]
  · cases hpo : priorityOfValue (d.priority.getD "MID") <;>
      simp [TodoItem.from_dict, hs, hse, hpo]

/-- C1 (witness for the amended claim): a concrete document with the
invalid priority tag `"urgent"` is rejected by `from_dict`. -/
theorem from_dict_invalid_tag_fails_witness :
    TodoItem.from_dict "f" "t1" "t2"
      ⟨none, none, none, some "urgent", none, none, none, none⟩ = none :=
  from_dict_invalid_tag_fails "f" "t1" "t2"
    ⟨none, none, none, some "urgent", none, none, none, none⟩
    (Or.inl ⟨"urgent", rfl, rfl⟩)

/-- C2: round-trip law — for every fully-populated `TodoItem` `r`
(totality of the Lean fields means every field is set and the enum
fields are among their enumerated values),
`from_dict (to_dict r)` succeeds and returns `r` field-for-field. -/
theorem from_dict_to_dict_round_trip (freshId nowC nowU : String)
    (r : TodoItem) :
    TodoItem.from_dict freshId nowC nowU r.to_dict = some r := by
  cases r with
  | mk id title details p s owner ca ua => cases p <;> cases s <;> rfl

/-- C3 (counterexample): the claim says `from_dict` completes every
partial document by filling each absent field with its default; but the
partial document `{"priority": "URGENT"}` (title, id, etc. absent) is
rejected outright — `from_dict` raises `ValueError` on the invalid
present tag and returns no completed record. -/
theorem from_dict_partial_doc_counterexample :
    TodoItem.from_dict "fresh" "t1" "t2"
      ⟨none, none, none, some "URGENT", none, none, none, none⟩ = none :=
  rfl

/-- C3 (amended): for every document whose present `priority`/`status`
values are valid tags, `from_dict` succeeds and fills each absent field
with its documented default — empty string for title/details/owner, MID
for priority, PENDING for status, the freshly generated identifier for
a missing id, and the current timestamps for missing
`created_at`/`updated_at`. -/
theorem from_dict_fills_defaults (f c u : String) (d : TodoDoc)
    (hp : ∀ p, d.priority = some p → priorityOfValue p ≠ none)
    (hs : ∀ s, d.status = some s → statusOfValue s ≠ none) :
    ∃ r, TodoItem.from_dict f c u d = some r ∧
      (d.id = none → r.id = f) ∧
      (d.title = none → r.title = "") ∧
      (d.details = none → r.details = "") ∧
      (d.priority = none → r.priority = Priority.MID) ∧
      (d.status = none → r.status = Status.PENDING) ∧
      (d.owner = none → r.owner = "") ∧
      (d.created_at = none → r.created_at = c) ∧
      (d.updated_at = none → r.updated_at = u) := by
  have hpE : ∃ p0, priorityOfValue (d.priority.getD "MID") = some p0 ∧
      (d.priority = none → p0 = Priority.MID) := by
    cases hdp : d.priority with
    | none => exact ⟨.MID, rfl, fun _ => rfl⟩
    | some p =>
      rcases Option.ne_none_iff_exists'.mp (hp p hdp) with ⟨p0, h0⟩
      exact ⟨p0, h0, by simp [hdp]⟩
  have hsE : ∃ s0, statusOfValue (d.status.getD "PENDING") = some s0 ∧
      (d.status = none → s0 = Status.PENDING) := by
    cases hds : d.status with
    | none => exact ⟨.PENDING, rfl, fun _ => rfl⟩
    | some s =>
      rcases Option.ne_none_iff_exists'.mp (hs s hds) with ⟨s0, h0⟩
      exact ⟨s0, h0, by simp [hds]⟩
  rcases hpE with ⟨p0, hp0, hpd⟩
  rcases hsE with ⟨s0, hs0, hsd⟩
  refine ⟨⟨d.id.getD f, d.title.getD "", d.details.getD "", p0, s0,
            d.owner.getD "", d.created_at.getD c, d.updated_at.getD u⟩,
    by simp [TodoItem.from_dict, hp0, hs0],
    fun h => by simp [h], fun h => by simp [h], fun h => by simp [h],
    fun h => hpd h, fun h => hsd h,
    fun h => by simp [h], fun h => by simp [h], fun h => by simp [h]⟩

/-- C3 (witness for the amended claim): the empty document is completed
with every documented default. -/
theorem from_dict_fills_defaults_witness :
    ∃ r, TodoItem.from_dict "fresh-3" "c3" "u3"
        ⟨none, none, none, none, none, none, none, none⟩ = some r ∧
      ((⟨none, none, none, none, none, none, none, none⟩ : TodoDoc).id
          = none → r.id = "fresh-3") ∧
      ((⟨none, none, none, none, none, none, none, none⟩ : TodoDoc).title
          = none → r.title = "") ∧
      ((⟨none, none, none, none, none, none, none, none⟩ : TodoDoc).details
          = none → r.details = "") ∧
      ((⟨none, none, none, none, none, none, none, none⟩ : TodoDoc).priority
          = none → r.priority = Priority.MID) ∧
      ((⟨none, none, none, none, none, none, none, none⟩ : TodoDoc).status
          = none → r.status = Status.PENDING) ∧
      ((⟨none, none, none, none, none, none, none, none⟩ : TodoDoc).owner
          = none → r.owner = "") ∧
      ((⟨none, none, none, none, none, none, none, none⟩ : TodoDoc).created_at
          = none → r.created_at = "c3") ∧
      ((⟨none, none, none, none, none, none, none, none⟩ : TodoDoc).updated_at
          = none → r.updated_at = "u3") :=
  from_dict_fills_defaults "fresh-3" "c3" "u3"
    ⟨none, none, none, none, none, none, none, none⟩
    (fun _ h => Option.noConfusion h) (fun _ h => Option.noConfusion h)

/-- C5: `to_dict` produces the full eight-field map, rendering
`priority`/`status` as their string tags — each one of the enumerated
tag strings — and copying every other field verbatim, omitting none. -/
theorem to_dict_full_field_map (r : TodoItem) :
    r.to_dict = ⟨some r.id, some r.title, some r.details,
      some r.priority.value, some r.status.value, some r.owner,
      some r.created_at, some r.updated_at⟩ ∧
    r.priority.value ∈ ["HIGH", "MID", "LOW"] ∧
    r.status.value ∈ ["PENDING", "COMPLETED"] := by
  refine ⟨rfl, ?_, ?_⟩
  · cases r.priority <;> simp [Priority.value]
  · cases r.status <;> simp [Status.value]

/-- C9: the two textual copies of the `TodoItem` class body
(`src/models.py` lines 37-63 and 64-90) are definitionally identical:
same field defaults, same `to_dict`, same `from_dict` on every input —
so the class Python builds (later definitions shadowing earlier ones)
behaves exactly like a class containing either copy alone. -/
theorem todo_item_duplicate_copies_identical :
    (∀ f c u : String,
      TodoItem.mkDefaultDup f c u = TodoItem.mkDefault f c u) ∧
    (∀ r : TodoItem, r.to_dictDup = r.to_dict) ∧
    (∀ (f c u : String) (d : TodoDoc),
      TodoItem.from_dictDup f c u d = TodoItem.from_dict f c u d) :=
  ⟨fun _ _ _ => rfl, fun _ => rfl, fun _ _ _ _ => rfl⟩

/-- C10: `User.from_dict` is a total left inverse of `User.to_dict`
(any username/password pair, the empty string included, round-trips
verbatim), and an absent `username` or `password` key is replaced by
the empty string rather than causing a failure. -/
theorem user_round_trip_and_defaults :
    (∀ u : User, User.from_dict u.to_dict = u) ∧
    (∀ d : UserDoc, d.username = none → (User.from_dict d).username = "") ∧
    (∀ d : UserDoc, d.password = none → (User.from_dict d).password = "") := by
  refine ⟨fun u => rfl, fun d h => ?_, fun d h => ?_⟩ <;>
    simp [User.from_dict, h]

/-- C10 (witness): the concrete account `("alice", "")` round-trips,
and absent keys default to the empty string. -/
theorem user_round_trip_and_defaults_witness :
    User.from_dict (User.to_dict ⟨"alice", ""⟩) = ⟨"alice", ""⟩ ∧
    (User.from_dict ⟨none, some "pw"⟩).username = "" ∧
    (User.from_dict ⟨some "bob", none⟩).password = "" :=
  ⟨user_round_trip_and_defaults.1 ⟨"alice", ""⟩,
   user_round_trip_and_defaults.2.1 ⟨none, some "pw"⟩ rfl,
   user_round_trip_and_defaults.2.2 ⟨some "bob", none⟩ rfl⟩

/-! ### Claims about the task-manager layer -/

theorem genId_length (n : Nat) : (genId n).length = n := by
  simp [genId, String.length]

theorem priorityOfValue_eq_none (tag : String) (h1 : tag ≠ "HIGH")
    (h2 : tag ≠ "MID") (h3 : tag ≠ "LOW") : priorityOfValue tag = none := by
  unfold priorityOfValue
  split <;> simp_all

/-- C4: every record returned by `create_todo` has status PENDING,
`created_at` equal to `updated_at`, priority resolved from the supplied
tag by exact match with default MID otherwise, and an identifier
distinct from the identifier of every record already held; the
freshness invariant is preserved. -/
theorem create_todo_spec (m : TodoManager) (hinv : m.Inv)
    (title details priorityTag owner now : String) :
    (m.create_todo title details priorityTag owner now).1.status
        = Status.PENDING ∧
    (m.create_todo title details priorityTag owner now).1.created_at
        = (m.create_todo title details priorityTag owner now).1.updated_at ∧
    (priorityTag = "HIGH" →
      (m.create_todo title details priorityTag owner now).1.priority
        = Priority.HIGH) ∧
    (priorityTag = "MID" →
      (m.create_todo title details priorityTag owner now).1.priority
        = Priority.MID) ∧
    (priorityTag = "LOW" →
      (m.create_todo title details priorityTag owner now).1.priority
        = Priority.LOW) ∧
    (priorityTag ≠ "HIGH" → priorityTag ≠ "MID" → priorityTag ≠ "LOW" →
      (m.create_todo title details priorityTag owner now).1.priority
        = Priority.MID) ∧
    (∀ t ∈ m.todos,
      (m.create_todo title details priorityTag owner now).1.id ≠ t.id) ∧
    (m.create_todo title details priorityTag owner now).2.Inv := by
  refine ⟨rfl, rfl, ?_, ?_, ?_, ?_, ?_, ?_⟩
  · intro h
    simp [TodoManager.create_todo, resolvePriority, h, priorityOfValue]
  · intro h
    simp [TodoManager.create_todo, resolvePriority, h, priorityOfValue]
  · intro h
    simp [TodoManager.create_todo, resolvePriority, h, priorityOfValue]
  · intro h1 h2 h3
    simp [TodoManager.create_todo, resolvePriority,
      priorityOfValue_eq_none priorityTag h1 h2 h3]
  · intro t ht he
    have hlt := hinv t ht
    rw [← he] at hlt
    simp only [TodoManager.create_todo] at hlt
    rw [genId_length] at hlt
    exact lt_irrefl _ hlt
  · intro t ht
    simp only [TodoManager.create_todo, List.mem_append,
      List.mem_singleton] at ht
    rcases ht with ht | rfl
    · exact Nat.lt_succ_of_lt (hinv t ht)
    · simp [TodoManager.create_todo, genId_length]

/-- C4 (witness): creating `("Buy milk", "", "URGENT", "alice")` over
the empty manager yields a PENDING record with equal timestamps, the
invalid tag normalized to MID, and a fresh identifier. -/
theorem create_todo_spec_witness :
    (TodoManager.empty.create_todo "Buy milk" "" "URGENT" "alice"
        "2024-05-05T10:00:00").1.status = Status.PENDING ∧
    (TodoManager.empty.create_todo "Buy milk" "" "URGENT" "alice"
        "2024-05-05T10:00:00").1.created_at
      = (TodoManager.empty.create_todo "Buy milk" "" "URGENT" "alice"
        "2024-05-05T10:00:00").1.updated_at ∧
    (("URGENT" : String) = "HIGH" →
      (TodoManager.empty.create_todo "Buy milk" "" "URGENT" "alice"
        "2024-05-05T10:00:00").1.priority = Priority.HIGH) ∧
    (("URGENT" : String) = "MID" →
      (TodoManager.empty.create_todo "Buy milk" "" "URGENT" "alice"
        "2024-05-05T10:00:00").1.priority = Priority.MID) ∧
    (("URGENT" : String) = "LOW" →
      (TodoManager.empty.create_todo "Buy milk" "" "URGENT" "alice"
        "2024-05-05T10:00:00").1.priority = Priority.LOW) ∧
    (("URGENT" : String) ≠ "HIGH" → ("URGENT" : String) ≠ "MID" →
      ("URGENT" : String) ≠ "LOW" →
      (TodoManager.empty.create_todo "Buy milk" "" "URGENT" "alice"
        "2024-05-05T10:00:00").1.priority = Priority.MID) ∧
    (∀ t ∈ TodoManager.empty.todos,
      (TodoManager.empty.create_todo "Buy milk" "" "URGENT" "alice"
        "2024-05-05T10:00:00").1.id ≠ t.id) ∧
    (TodoManager.empty.create_todo "Buy milk" "" "URGENT" "alice"
        "2024-05-05T10:00:00").2.Inv :=
  create_todo_spec TodoManager.empty
    (by intro t ht; simp [TodoManager.empty] at ht)
    "Buy milk" "" "URGENT" "alice" "2024-05-05T10:00:00"

theorem find?_map_update (i : String) (f : TodoItem → TodoItem)
    (hf : ∀ t, (f t).id = t.id) :
    ∀ (l : List TodoItem) (t : TodoItem),
      l.find? (fun t => t.id == i) = some t →
      (l.map fun t => if t.id == i then f t else t).find?
        (fun t => t.id == i) = some (f t) := by
  intro l
  induction l with
  | nil => intro t h; simp at h
  | cons a l ih =>
    intro t h
    by_cases hpa : a.id = i
    · have hb : (a.id == i) = true := beq_iff_eq.mpr hpa
      have hfb : ((f a).id == i) = true := by rw [hf a]; exact hb
      simp only [List.find?_cons, hb] at h
      obtain rfl : a = t := Option.some.inj h
      simp only [List.map_cons, hb, if_true, List.find?_cons, hfb]
    · have hb : (a.id == i) = false := beq_eq_false_iff_ne.mpr hpa
      simp only [List.find?_cons, hb] at h
      simp only [List.map_cons, hb, Bool.false_eq_true, if_false,
        List.find?_cons]
      exact ih t h

theorem applyUpdate_id (t : TodoItem)
    (title? details? priorityTag? statusTag? : Option String)
    (now : String) :
    (applyUpdate t title? details? priorityTag? statusTag? now).id
      = t.id := rfl

/-- C6: when the looked-up record exists, `update_todo` succeeds and
the record stored under that id afterwards keeps its `id`, `created_at`
and `owner`, keeps every field whose update argument was not supplied,
and has `updated_at` set to the current timestamp — strictly greater
than the old one whenever the clock advanced. -/
theorem update_todo_frame (m : TodoManager) (i : String) (t : TodoItem)
    (title? details? priorityTag? statusTag? : Option String)
    (now : String)
    (hfind : m.get_todo_by_id i = some t)
    (hclock : t.updated_at < now) :
    (m.update_todo i title? details? priorityTag? statusTag? now).1
        = true ∧
    ∃ t', (m.update_todo i title? details? priorityTag? statusTag?
          now).2.get_todo_by_id i = some t' ∧
      t'.id = t.id ∧
      t'.created_at = t.created_at ∧
      t'.owner = t.owner ∧
      (title? = none → t'.title = t.title) ∧
      (details? = none → t'.details = t.details) ∧
      (priorityTag? = none → t'.priority = t.priority) ∧
      (statusTag? = none → t'.status = t.status) ∧
      t'.updated_at = now ∧
      t.updated_at < t'.updated_at := by
  simp only [TodoManager.get_todo_by_id] at hfind
  have hstep := find?_map_update i
    (fun t => applyUpdate t title? details? priorityTag? statusTag? now)
    (fun t => applyUpdate_id t title? details? priorityTag? statusTag? now)
    m.todos t hfind
  refine ⟨?_, applyUpdate t title? details? priorityTag? statusTag? now,
    ?_, rfl, rfl, rfl, ?_, ?_, ?_, ?_, rfl, hclock⟩
  · simp [TodoManager.update_todo, hfind]
  · simp only [TodoManager.update_todo, hfind,
      TodoManager.get_todo_by_id]
    exact hstep
  · intro h; subst h; rfl
  · intro h; subst h; rfl
  · intro h; subst h; rfl
  · intro h; subst h; rfl

/-- C6 (witness): updating only the title of an existing concrete
record leaves id, `created_at`, owner, details, priority and status
unchanged and strictly advances `updated_at`. -/
theorem update_todo_frame_witness :
    ((TodoManager.mk
        [⟨"id-6", "Old", "D", Priority.HIGH, Status.PENDING, "alice",
          "2024-01-01T00:00:00", "2024-01-01T00:00:00"⟩] [] 7).update_todo
        "id-6" (some "New") none none none "2024-01-02T00:00:00").1
        = true ∧
    ∃ t', ((TodoManager.mk
        [⟨"id-6", "Old", "D", Priority.HIGH, Status.PENDING, "alice",
          "2024-01-01T00:00:00", "2024-01-01T00:00:00"⟩] [] 7).update_todo
        "id-6" (some "New") none none none
        "2024-01-02T00:00:00").2.get_todo_by_id "id-6" = some t' ∧
      t'.id = "id-6" ∧
      t'.created_at = "2024-01-01T00:00:00" ∧
      t'.owner = "alice" ∧
      ((some "New" : Option String) = none → t'.title = "Old") ∧
      ((none : Option String) = none → t'.details = "D") ∧
      ((none : Option String) = none → t'.priority = Priority.HIGH) ∧
      ((none : Option String) = none → t'.status = Status.PENDING) ∧
      t'.updated_at = "2024-01-02T00:00:00" ∧
      ("2024-01-01T00:00:00" : String) < t'.updated_at :=
  update_todo_frame
    (TodoManager.mk
      [⟨"id-6", "Old", "D", Priority.HIGH, Status.PENDING, "alice",
        "2024-01-01T00:00:00", "2024-01-01T00:00:00"⟩] [] 7)
    "id-6"
    ⟨"id-6", "Old", "D", Priority.HIGH, Status.PENDING, "alice",
      "2024-01-01T00:00:00", "2024-01-01T00:00:00"⟩
    (some "New") none none none "2024-01-02T00:00:00"
    rfl
    (by simp [String.lt_iff_toList_lt]; decide)

/-- C7: `update_todo` on an id that is not in the manager's sequence
returns failure and the whole state — the in-memory sequence and the
persisted document alike — is returned unchanged: no write happens. -/
theorem update_todo_not_found (m : TodoManager) (i : String)
    (title? details? priorityTag? statusTag? : Option String)
    (now : String)
    (h : m.get_todo_by_id i = none) :
    m.update_todo i title? details? priorityTag? statusTag? now
      = (false, m) := by
  simp only [TodoManager.get_todo_by_id] at h
  simp [TodoManager.update_todo, h]

/-- C7 (witness): updating a non-existent id over a concrete one-record
manager fails and leaves the manager — file included — untouched. -/
theorem update_todo_not_found_witness :
    (TodoManager.mk
        [⟨"id-7", "T", "", Priority.MID, Status.PENDING, "bob",
          "2024-01-01T00:00:00", "2024-01-01T00:00:00"⟩]
        [⟨some "id-7", some "T", some "", some "MID", some "PENDING",
          some "bob", some "2024-01-01T00:00:00",
          some "2024-01-01T00:00:00"⟩] 3).update_todo
      "missing-id" (some "New Title") none none none
      "2024-01-02T00:00:00"
    = (false, TodoManager.mk
        [⟨"id-7", "T", "", Priority.MID, Status.PENDING, "bob",
          "2024-01-01T00:00:00", "2024-01-01T00:00:00"⟩]
        [⟨some "id-7", some "T", some "", some "MID", some "PENDING",
          some "bob", some "2024-01-01T00:00:00",
          some "2024-01-01T00:00:00"⟩] 3) :=
  update_todo_not_found _ "missing-id"
    (some "New Title") none none none "2024-01-02T00:00:00" rfl

/-- A JSON decoder that fails on every input, standing for a parse
attempt over a corrupted file. -/
def parseAlwaysFails : String → Option (List TodoDoc) := fun _ => none

/-- C8: the flat-file store's load returns the empty sequence when the
file does not exist (`none` contents) and when the file exists but its
contents fail to parse as the expected format; neither condition is an
error. -/
theorem load_store_missing_or_corrupt
    (parse : String → Option (List TodoDoc)) (c : String) :
    load_store none parse = [] ∧
    (parse c = none → load_store (some c) parse = []) := by
  refine ⟨rfl, fun h => ?_⟩
  simp [load_store, h]

/-- C8 (witness): loading a missing file and loading a file whose
contents do not parse both yield the empty sequence. -/
theorem load_store_missing_or_corrupt_witness :
    load_store none parseAlwaysFails = [] ∧
    load_store (some "invalid json") parseAlwaysFails = [] :=
  ⟨(load_store_missing_or_corrupt parseAlwaysFails "invalid json").1,
   (load_store_missing_or_corrupt parseAlwaysFails "invalid json").2 rfl⟩

end Todolist
